import Mathlib

/-!
Shallow embedding of the Flappy Strawberry game core (src/index.js):
physics integration, obstacle generation and recycling, scoring,
collision detection, persisted best-score reading, and the game state
machine.  JS numbers are modelled as rationals; the randomness consumed
by obstacle generation is passed in explicitly as rational draws.
-/

namespace Flappy

/-- Logical playfield width (src/index.js line 116: GAME_WIDTH = 360). -/
def GAME_WIDTH : ℚ := 360

/-- Logical playfield height (src/index.js line 117: GAME_HEIGHT = 640). -/
def GAME_HEIGHT : ℚ := 640

/-- Downward acceleration in px/s^2 (src/index.js line 202: gravity = 1800). -/
def gravity : ℚ := 1800

/-- Upward instant velocity on flap (src/index.js line 203: flapImpulse = -420). -/
def flapImpulse : ℚ := -420

/-- Downward speed clamp (src/index.js line 204: terminalVelDown = 600). -/
def terminalVelDown : ℚ := 600

/-- Upward speed clamp (src/index.js line 205: terminalVelUp = -700). -/
def terminalVelUp : ℚ := -700

/-- Vertical gap between the pipe segments (src/index.js line 209: pipeGap = 160). -/
def pipeGap : ℚ := 160

/-- Pipe width (src/index.js line 210: pipeWidth = 56). -/
def pipeWidth : ℚ := 56

/-- Horizontal distance between pipes (src/index.js line 211: pipeSpacing = 240). -/
def pipeSpacing : ℚ := 240

/-- Scroll speed in px/s (src/index.js line 212: pipeSpeed = 125). -/
def pipeSpeed : ℚ := 125

/-- Ground strip height (src/index.js line 215: groundHeight = 72). -/
def groundHeight : ℚ := 72

/-- Margin kept by the pipe generator (src/index.js line 296: local margin = 40). -/
def margin : ℚ := 40

/-- The player avatar (src/index.js lines 192-198: the strawberry object). -/
structure Strawberry where
  x : ℚ
  y : ℚ
  radius : ℚ
  vy : ℚ
  rotation : ℚ
deriving DecidableEq

/-- One obstacle pair (src/index.js lines 303-310: object built by generatePipeAtX). -/
structure Pipe where
  x : ℚ
  width : ℚ
  topHeight : ℚ
  passed : Bool
  styleTop : String
  styleBottom : String
deriving DecidableEq

/-- Parallax background offsets (src/index.js line 224: bgOffset). -/
structure BgOffset where
  stars : ℚ
  hills : ℚ
  clouds : ℚ
  bushes : ℚ
deriving DecidableEq

/-- Result of the JS Number coercion: NaN, an infinity, or a finite value.
This models the decimal fragment of the ToNumber specification used by
readBestScore (src/index.js line 165): trimmed whitespace, optional sign,
the literal Infinity, and decimal numerals with an optional fraction part;
every other string coerces to NaN. -/
inductive JsNum where
  | nan
  | posInf
  | negInf
  | fin (q : ℚ)
deriving DecidableEq

/-- Value of a list of decimal digit characters read left to right. -/
def digitsToNat (cs : List Char) : ℕ :=
  cs.foldl (fun a c => 10 * a + (c.toNat - 48)) 0

/-- Value of an integer part and a fraction part, both given as digit lists. -/
def decValue (ip fp : List Char) : ℚ :=
  (digitsToNat ip : ℚ) + (digitsToNat fp : ℚ) / (10 : ℚ) ^ fp.length

/-- Parses an unsigned decimal numeral (digits, optionally a point and more
digits, at least one digit overall); none when the characters are not a
well-formed numeral. -/
def parseDec (cs : List Char) : Option ℚ :=
  let ip := cs.takeWhile (fun c => c.isDigit)
  let rest := cs.dropWhile (fun c => c.isDigit)
  match rest with
  | [] => if ip.isEmpty then none else some ((digitsToNat ip : ℚ))
  | '.' :: fp =>
      if fp.all (fun c => c.isDigit) ∧ (ip.isEmpty = false ∨ fp.isEmpty = false)
      then some (decValue ip fp)
      else none
  | _ => none

/-- Whitespace characters trimmed by the JS Number coercion. -/
def isWs (c : Char) : Bool :=
  c = ' ' || c = '\t' || c = '\n' || c = '\r'

/-- Unsigned part of the JS Number coercion: Infinity or a decimal numeral. -/
def jsUnsigned (cs : List Char) : JsNum :=
  if cs = "Infinity".toList then JsNum.posInf
  else
    match parseDec cs with
    | some q => JsNum.fin q
    | none => JsNum.nan

/-- JS Number coercion of a string (decimal fragment): trim whitespace,
empty goes to 0, then an optional sign followed by Infinity or a decimal
numeral; anything else is NaN. -/
def jsToNumber (s : String) : JsNum :=
  let cs := ((s.toList.dropWhile isWs).reverse.dropWhile isWs).reverse
  match cs with
  | [] => JsNum.fin 0
  | '+' :: rest => jsUnsigned rest
  | '-' :: rest =>
      match jsUnsigned rest with
      | JsNum.fin q => JsNum.fin (-q)
      | JsNum.posInf => JsNum.negInf
      | x => x
  | _ => jsUnsigned cs

/-- Reads the best score (src/index.js lines 162-170: readBestScore).  The
stored raw value is none when localStorage has no entry (or throws); a
present value coerces through Number, and any non-finite result defaults
to 0. -/
def readBestScore (raw : Option String) : ℚ :=
  let parsed : JsNum :=
    match raw with
    | none => JsNum.fin 0
    | some s => jsToNumber s
  match parsed with
  | JsNum.fin q => q
  | _ => 0

/-- Circle versus axis-aligned rectangle collision test
(src/index.js lines 410-416: circleRectCollision). -/
def circleRectCollision (cx cy cr rx ry rw rh : ℚ) : Bool :=
  let nearestX := max rx (min cx (rx + rw))
  let nearestY := max ry (min cy (ry + rh))
  let dx := cx - nearestX
  let dy := cy - nearestY
  decide (dx * dx + dy * dy ≤ cr * cr)

/-- Sequential velocity clamp (src/index.js lines 326-327): cap at
terminalVelDown first, then at terminalVelUp. -/
def clampVel (v : ℚ) : ℚ :=
  let v1 := if v > terminalVelDown then terminalVelDown else v
  if v1 < terminalVelUp then terminalVelUp else v1

/-- One physics step for the avatar (src/index.js lines 325-343): gravity,
velocity clamps, position integration, rotation smoothing, then ground and
ceiling handling.  Returns the new avatar and whether the ground was hit
(which triggers die() in the source). -/
def physStep (dtS : ℚ) (b : Strawberry) : Strawberry × Bool :=
  let vy := clampVel (b.vy + gravity * dtS)
  let y := b.y + vy * dtS
  let targetRot := min (45 / 100 : ℚ) (max (-(3 / 5) : ℚ) (vy / 600))
  let rotLerp := min 1 (dtS * 10)
  let rot := b.rotation + (targetRot - b.rotation) * rotLerp
  let hitGround := y + b.radius > GAME_HEIGHT - groundHeight
  let y2 := if hitGround then GAME_HEIGHT - groundHeight - b.radius else y
  let hitCeil := y2 - b.radius < 0
  let y3 := if hitCeil then b.radius else y2
  let vy2 := if hitCeil then 0 else vy
  ({ b with y := y3, vy := vy2, rotation := rot }, hitGround)

/-- Creates a new pipe pair at the given x (src/index.js lines 294-311:
generatePipeAtX); r is the Math.random() draw in [0,1). -/
def generatePipeAtX (r x : ℚ) : Pipe :=
  { x := x
    width := pipeWidth
    topHeight := ((⌊margin + r * (GAME_HEIGHT - groundHeight - pipeGap - margin * 2)⌋ : ℤ) : ℚ)
    passed := false
    styleTop := "Copilot"
    styleBottom := "Sonnet" }

/-- Bottom segment height derived from a pipe (src/index.js lines 385-386). -/
def bottomHeightOf (p : Pipe) : ℚ :=
  GAME_HEIGHT - groundHeight - (p.topHeight + pipeGap)

/-- Horizontal pipe movement for one tick (src/index.js lines 346-348). -/
def movePipe (dtS : ℚ) (p : Pipe) : Pipe :=
  { p with x := p.x - pipeSpeed * dtS }

/-- Scoring latch for one pipe (src/index.js lines 370-372): when not yet
passed and the avatar x exceeds the trailing edge, set the passed flag.
Returns the pipe and whether the latch fired this tick. -/
def latchPipe (sx : ℚ) (p : Pipe) : Pipe × Bool :=
  if p.passed = false ∧ sx > p.x + p.width then ({ p with passed := true }, true)
  else (p, false)

/-- Collision of the avatar against both rectangles of a pipe
(src/index.js lines 382-389). -/
def pipeHitsStrawberry (b : Strawberry) (p : Pipe) : Bool :=
  circleRectCollision b.x b.y b.radius p.x 0 p.width p.topHeight
    || circleRectCollision b.x b.y b.radius p.x (p.topHeight + pipeGap) p.width
        (GAME_HEIGHT - groundHeight - (p.topHeight + pipeGap))

/-- The score-relevant portion of the game state mutated by the per-pipe
loop (src/index.js lines 368-390). -/
structure ScoreAcc where
  score : ℚ
  best : ℚ
  newBestAchieved : Bool
  gameOver : Bool
deriving DecidableEq

/-- One iteration of the scoring/collision loop body for one pipe
(src/index.js lines 368-390): latch the passed flag, bump score, update
best and the new-best flag when the score exceeds best, then test both
rectangles for collision (a hit sets gameOver, as die() does). -/
def scoreStep (b : Strawberry) (acc : ScoreAcc) (p : Pipe) : ScoreAcc × Pipe :=
  let lp := latchPipe b.x p
  let score1 := if lp.2 then acc.score + 1 else acc.score
  let newRecord := lp.2 = true ∧ score1 > acc.best
  let best1 := if newRecord then score1 else acc.best
  let nb1 := if newRecord then true else acc.newBestAchieved
  ({ score := score1
     best := best1
     newBestAchieved := nb1
     gameOver := acc.gameOver || pipeHitsStrawberry b lp.1 }, lp.1)

/-- The full scoring/collision loop over the pipe list
(src/index.js lines 368-390), returning the final accumulator and the
updated pipes. -/
def scoreFold (b : Strawberry) : ScoreAcc → List Pipe → ScoreAcc × List Pipe
  | acc, [] => (acc, [])
  | acc, p :: ps =>
      let sp := scoreStep b acc p
      let rest := scoreFold b sp.1 ps
      (rest.1, sp.2 :: rest.2)

/-- Retires the head pipe once fully off screen (src/index.js lines 358-361). -/
def retireHead : List Pipe → List Pipe
  | [] => []
  | p :: ps => if p.x + pipeWidth < -10 then ps else p :: ps

/-- Appends a freshly generated pipe one spacing after the tail when the
tail has come close enough (src/index.js lines 362-365). -/
def spawnTail (r : ℚ) (l : List Pipe) : List Pipe :=
  match l.getLast? with
  | none => l
  | some last =>
      if last.x < GAME_WIDTH - pipeSpacing
      then l ++ [generatePipeAtX r (last.x + pipeSpacing)]
      else l

/-- Advances the parallax offsets (src/index.js lines 352-355). -/
def bgStep (dtS : ℚ) (g : BgOffset) : BgOffset :=
  { stars := g.stars + 10 * dtS
    hills := g.hills + 20 * dtS
    clouds := g.clouds + 35 * dtS
    bushes := g.bushes + 60 * dtS }

/-- The whole mutable game state (src/index.js lines 182-224: state,
strawberry, pipes, bgOffset). -/
structure GameState where
  started : Bool
  gameOver : Bool
  score : ℚ
  best : ℚ
  newBestAchieved : Bool
  strawberry : Strawberry
  pipes : List Pipe
  bgOffset : BgOffset
deriving DecidableEq

/-- Pipe list after movement, retirement and spawning in one tick
(src/index.js lines 346-365). -/
def movedPipes (r dt : ℚ) (s : GameState) : List Pipe :=
  spawnTail r (retireHead (s.pipes.map (movePipe (dt / 1000))))

/-- Scoring/collision pass of one tick, fed with the post-physics avatar
and the moved pipe list (src/index.js lines 368-390). -/
def tickScore (r dt : ℚ) (s : GameState) : ScoreAcc × List Pipe :=
  scoreFold (physStep (dt / 1000) s.strawberry).1
    { score := s.score
      best := s.best
      newBestAchieved := s.newBestAchieved
      gameOver := s.gameOver || (physStep (dt / 1000) s.strawberry).2 }
    (movedPipes r dt s)

/-- Advances the simulation by dt milliseconds (src/index.js lines 318-391:
update).  A no-op unless the game is started and not over; r is the
Math.random() draw used if a pipe spawns this tick. -/
def update (r dt : ℚ) (s : GameState) : GameState :=
  if s.started = false ∨ s.gameOver = true then s
  else
    { started := s.started
      gameOver := (tickScore r dt s).1.gameOver
      score := (tickScore r dt s).1.score
      best := (tickScore r dt s).1.best
      newBestAchieved := (tickScore r dt s).1.newBestAchieved
      strawberry := (physStep (dt / 1000) s.strawberry).1
      pipes := (tickScore r dt s).2
      bgOffset := bgStep (dt / 1000) s.bgOffset }

/-- Seeds n pipes from x on, one spacing apart, drawing randomness from
the stream rs (src/index.js lines 269-274: the loop in startGame). -/
def seedPipes : (ℕ → ℚ) → ℚ → ℕ → List Pipe
  | _, _, 0 => []
  | rs, x, n + 1 =>
      generatePipeAtX (rs 0) x :: seedPipes (fun i => rs (i + 1)) (x + pipeSpacing) n

/-- Begins a new run (src/index.js lines 262-276: startGame): set Running,
clear score, reset the avatar's y and vy, and seed 4 pipes starting at
GAME_WIDTH + 120.  The best score and the new-best flag are untouched. -/
def startGame (rs : ℕ → ℚ) (s : GameState) : GameState :=
  { s with
      started := true
      gameOver := false
      score := 0
      strawberry := { s.strawberry with y := GAME_HEIGHT / 2, vy := 0 }
      pipes := seedPipes rs (GAME_WIDTH + 120) 4 }

/-- Resets to the idle pre-start screen (src/index.js lines 279-287:
resetGame): clear started, gameOver, score and the new-best flag, restore
the avatar's y and vy, and empty the pipe list. -/
def resetGame (s : GameState) : GameState :=
  { s with
      started := false
      gameOver := false
      score := 0
      newBestAchieved := false
      strawberry := { s.strawberry with y := GAME_HEIGHT / 2, vy := 0 }
      pipes := [] }

/-- Handles one flap input (src/index.js lines 228-239: flap): start the
game when idle, reset when ended, otherwise apply the flap impulse. -/
def flap (rs : ℕ → ℚ) (s : GameState) : GameState :=
  if s.started = false then startGame rs s
  else if s.gameOver = true then resetGame s
  else { s with strawberry := { s.strawberry with vy := flapImpulse } }

/-- External events driving the game: a flap (with the random draws it may
consume when starting a run) or a timed tick (with the draw a spawn may
consume). -/
inductive GameEvent where
  | flapEv (rs : ℕ → ℚ)
  | tickEv (r dt : ℚ)

/-- Applies one event to the state. -/
def stepEvent : GameEvent → GameState → GameState
  | GameEvent.flapEv rs, s => flap rs s
  | GameEvent.tickEv r dt, s => update r dt s

/-- Runs a sequence of events from a state. -/
def runEvents (es : List GameEvent) (s : GameState) : GameState :=
  es.foldl (fun t e => stepEvent e t) s

/-- The avatar as first created (src/index.js lines 192-198). -/
def initStrawberry : Strawberry :=
  { x := 80, y := GAME_HEIGHT / 2, radius := 18, vy := 0, rotation := 0 }

/-- The process-start state (src/index.js lines 182-224), with the best
score read from the given persisted raw value. -/
def initState (stored : Option String) : GameState :=
  { started := false
    gameOver := false
    score := 0
    best := readBestScore stored
    newBestAchieved := false
    strawberry := initStrawberry
    pipes := []
    bgOffset := { stars := 0, hills := 0, clouds := 0, bushes := 0 } }

/-- A concrete Ended state: a run that just died with score 3 and best 5,
one pipe still on screen. -/
def endedDemo : GameState :=
  { started := true
    gameOver := true
    score := 3
    best := 5
    newBestAchieved := false
    strawberry := { x := 80, y := 100, radius := 18, vy := 50, rotation := 0 }
    pipes := [generatePipeAtX (1 / 2) 200]
    bgOffset := { stars := 0, hills := 0, clouds := 0, bushes := 0 } }

/-- The spec scenario state: running, avatar at y = 0 with downward
velocity 100, no pipes in range. -/
def c3State : GameState :=
  { started := true
    gameOver := false
    score := 0
    best := 0
    newBestAchieved := false
    strawberry := { x := 80, y := 0, radius := 18, vy := 100, rotation := 0 }
    pipes := []
    bgOffset := { stars := 0, hills := 0, clouds := 0, bushes := 0 } }

/-- Velocity after the sequential clamp lies within the terminal bounds. -/
lemma clampVel_bounds (v : ℚ) :
    terminalVelUp ≤ clampVel v ∧ clampVel v ≤ terminalVelDown := by
  simp only [clampVel, terminalVelUp, terminalVelDown]
  split_ifs <;> constructor <;> linarith

/-- Avatar velocity after one physics step lies within the terminal bounds. -/
lemma physStep_vy_bounds (dtS : ℚ) (b : Strawberry) :
    terminalVelUp ≤ (physStep dtS b).1.vy ∧ (physStep dtS b).1.vy ≤ terminalVelDown := by
  simp only [physStep]
  split_ifs
  · exact ⟨by norm_num [terminalVelUp], by norm_num [terminalVelDown]⟩
  · exact clampVel_bounds _
  · exact ⟨by norm_num [terminalVelUp], by norm_num [terminalVelDown]⟩
  · exact clampVel_bounds _

/-- On a running tick, the updated avatar is exactly the physics step of
the previous avatar. -/
lemma update_strawberry (r dt : ℚ) (s : GameState)
    (h1 : s.started = true) (h2 : s.gameOver = false) :
    (update r dt s).strawberry = (physStep (dt / 1000) s.strawberry).1 := by
  simp [update, h1, h2]

/-- C1 (counterexample): from the concrete Ended state, a single flap
leaves the game not started (Idle) with no obstacles seeded, contradicting
the claim that it transitions directly to Running with re-seeded
obstacles. -/
theorem c1_flap_ended_counterexample :
    (flap (fun _ => 0) endedDemo).started = false ∧
    (flap (fun _ => 0) endedDemo).pipes = [] := by
  constructor <;> norm_num [flap, endedDemo, resetGame]

/-- C1 (amended): from every Ended state, a single flap performs the full
reset (score 0, obstacles cleared, new-best flag cleared, avatar restored
to default y and velocity, best untouched) but transitions to the Idle
pre-start state (started = false), not to Running; no obstacles are
seeded until a subsequent flap starts a new run. -/
theorem c1_flap_ended_resets_to_idle (rs : ℕ → ℚ) (s : GameState)
    (h1 : s.started = true) (h2 : s.gameOver = true) :
    flap rs s = resetGame s ∧
    (flap rs s).started = false ∧
    (flap rs s).gameOver = false ∧
    (flap rs s).score = 0 ∧
    (flap rs s).newBestAchieved = false ∧
    (flap rs s).pipes = [] ∧
    (flap rs s).strawberry.y = GAME_HEIGHT / 2 ∧
    (flap rs s).strawberry.vy = 0 ∧
    (flap rs s).best = s.best := by
  have hf : flap rs s = resetGame s := by simp [flap, h1, h2]
  rw [hf]
  exact ⟨rfl, rfl, rfl, rfl, rfl, rfl, rfl, rfl, rfl⟩

/-- C1 (witness): the amended statement evaluated at the concrete Ended
state. -/
theorem c1_witness :
    flap (fun _ => 0) endedDemo = resetGame endedDemo ∧
    (flap (fun _ => 0) endedDemo).started = false ∧
    (flap (fun _ => 0) endedDemo).gameOver = false ∧
    (flap (fun _ => 0) endedDemo).score = 0 ∧
    (flap (fun _ => 0) endedDemo).newBestAchieved = false ∧
    (flap (fun _ => 0) endedDemo).pipes = [] ∧
    (flap (fun _ => 0) endedDemo).strawberry.y = GAME_HEIGHT / 2 ∧
    (flap (fun _ => 0) endedDemo).strawberry.vy = 0 ∧
    (flap (fun _ => 0) endedDemo).best = endedDemo.best :=
  c1_flap_ended_resets_to_idle (fun _ => 0) endedDemo rfl rfl

/-- C2 (counterexample): a circle of radius 0 centered at the corner
(0, 0) of the rectangle with origin (0, 0) and size 10 by 10 collides,
contradicting the claim that the test returns false there. -/
theorem c2_corner_counterexample :
    circleRectCollision 0 0 0 0 0 10 10 = true := by
  norm_num [circleRectCollision]

/-- C2 (amended): for every axis-aligned rectangle with non-negative
extents, the collision test applied to a radius-0 circle centered at any
of the four corners returns true: the test is boundary inclusive, the
nearest point is the corner itself and the squared distance 0 is allowed
to equal the squared radius 0. -/
theorem c2_corner_touches (rx ry rw rh : ℚ) (hw : 0 ≤ rw) (hh : 0 ≤ rh) :
    circleRectCollision rx ry 0 rx ry rw rh = true ∧
    circleRectCollision (rx + rw) ry 0 rx ry rw rh = true ∧
    circleRectCollision rx (ry + rh) 0 rx ry rw rh = true ∧
    circleRectCollision (rx + rw) (ry + rh) 0 rx ry rw rh = true := by
  have hx1 : min rx (rx + rw) = rx := min_eq_left (by linarith)
  have hx2 : min (rx + rw) (rx + rw) = rx + rw := min_self _
  have hy1 : min ry (ry + rh) = ry := min_eq_left (by linarith)
  have hy2 : min (ry + rh) (ry + rh) = ry + rh := min_self _
  have hx2' : max rx (rx + rw) = rx + rw := max_eq_right (by linarith)
  have hy2' : max ry (ry + rh) = ry + rh := max_eq_right (by linarith)
  refine ⟨?_, ?_, ?_, ?_⟩ <;>
    simp [circleRectCollision, hx1, hx2, hy1, hy2, hx2', hy2', max_self]

/-- C2 (witness): the amended statement evaluated at the rectangle with
origin (0, 0), width 10, height 10. -/
theorem c2_witness :
    circleRectCollision 0 0 0 0 0 10 10 = true ∧
    circleRectCollision (0 + 10) 0 0 0 0 10 10 = true ∧
    circleRectCollision 0 (0 + 10) 0 0 0 10 10 = true ∧
    circleRectCollision (0 + 10) (0 + 10) 0 0 0 10 10 = true :=
  c2_corner_touches 0 0 10 10 (by norm_num) (by norm_num)

/-- C3 (counterexample): starting the scenario tick (y = 0, vy = 100,
dt = 16ms) the post-tick velocity is 0, not 128.8: the integrated position
2.0608 puts the avatar's upper extent above the top boundary, so the
ceiling handling snaps y to the radius and zeroes the velocity. -/
theorem c3_scenario_counterexample :
    (update 0 16 c3State).strawberry.vy = 0 ∧
    ¬((update 0 16 c3State).strawberry.vy = 1288 / 10 ∧
      (update 0 16 c3State).strawberry.y = 1288 / 625) := by
  have h : (update 0 16 c3State).strawberry.vy = 0 := by
    norm_num [c3State, update, tickScore, movedPipes, physStep, clampVel, scoreFold,
      spawnTail, retireHead, bgStep, GAME_HEIGHT, groundHeight, gravity,
      terminalVelDown, terminalVelUp, pipeSpeed, pipeWidth, pipeSpacing, GAME_WIDTH]
  refine ⟨h, ?_⟩
  rintro ⟨hvy, -⟩
  rw [h] at hvy
  norm_num at hvy

/-- C3 (amended): in the scenario, gravity integration does produce the
intermediate velocity 128.8 = 100 + 1800 * 0.016 (unclamped, it is within
the terminal bounds) and intermediate position 2.0608 = 128.8 * 0.016,
but the top-boundary handling of the same tick then snaps the avatar to
y = radius = 18 and zeroes its velocity, so the post-tick state is
y = 18 and vy = 0. -/
theorem c3_scenario_actual :
    clampVel (100 + gravity * (16 / 1000)) = 1288 / 10 ∧
    (0 : ℚ) + clampVel (100 + gravity * (16 / 1000)) * (16 / 1000) = 1288 / 625 ∧
    (update 0 16 c3State).strawberry.y = 18 ∧
    (update 0 16 c3State).strawberry.vy = 0 := by
  refine ⟨?_, ?_, ?_, ?_⟩ <;>
    norm_num [c3State, update, tickScore, movedPipes, physStep, clampVel, scoreFold,
      spawnTail, retireHead, bgStep, GAME_HEIGHT, groundHeight, gravity,
      terminalVelDown, terminalVelUp, pipeSpeed, pipeWidth, pipeSpacing, GAME_WIDTH]

/-- C5: on any running tick with dt ≥ 0, the post-tick avatar velocity
lies in the terminal interval [terminalVelUp, terminalVelDown] =
[-700, 600]: the integrated velocity is clamped sequentially and the
ceiling case sets it to 0, which is also inside the interval. -/
theorem c5_velocity_clamped (r dt : ℚ) (s : GameState)
    (h1 : s.started = true) (h2 : s.gameOver = false) (_hdt : 0 ≤ dt) :
    terminalVelUp ≤ (update r dt s).strawberry.vy ∧
    (update r dt s).strawberry.vy ≤ terminalVelDown := by
  rw [update_strawberry r dt s h1 h2]
  exact physStep_vy_bounds _ _

/-- C5 (witness): the bound evaluated on the concrete running scenario
state with dt = 16. -/
theorem c5_witness :
    terminalVelUp ≤ (update 0 16 c3State).strawberry.vy ∧
    (update 0 16 c3State).strawberry.vy ≤ terminalVelDown :=
  c5_velocity_clamped 0 16 c3State rfl rfl (by norm_num)

/-- C6: for every draw r in [0, 1) and target x, the generated pipe
satisfies topHeight ≥ margin, bottomHeight ≥ margin, and
topHeight + pipeGap + bottomHeight = GAME_HEIGHT - groundHeight. -/
theorem c6_pipe_heights (r x : ℚ) (h0 : 0 ≤ r) (h1 : r < 1) :
    margin ≤ (generatePipeAtX r x).topHeight ∧
    margin ≤ bottomHeightOf (generatePipeAtX r x) ∧
    (generatePipeAtX r x).topHeight + pipeGap + bottomHeightOf (generatePipeAtX r x)
      = GAME_HEIGHT - groundHeight := by
  have hexpr : margin + r * (GAME_HEIGHT - groundHeight - pipeGap - margin * 2)
      = 40 + r * 328 := by
    norm_num [margin, GAME_HEIGHT, groundHeight, pipeGap]
  have htop : (generatePipeAtX r x).topHeight = ((⌊(40 : ℚ) + r * 328⌋ : ℤ) : ℚ) := by
    simp [generatePipeAtX, hexpr]
  have hlo : (40 : ℤ) ≤ ⌊(40 : ℚ) + r * 328⌋ := by
    apply Int.le_floor.mpr
    push_cast
    linarith
  have hhi : ⌊(40 : ℚ) + r * 328⌋ < 368 := by
    apply Int.floor_lt.mpr
    push_cast
    linarith
  have hloQ : (40 : ℚ) ≤ ((⌊(40 : ℚ) + r * 328⌋ : ℤ) : ℚ) := by exact_mod_cast hlo
  have hhiQ : ((⌊(40 : ℚ) + r * 328⌋ : ℤ) : ℚ) ≤ 367 := by
    have : ⌊(40 : ℚ) + r * 328⌋ ≤ 367 := by omega
    exact_mod_cast this
  have hm : margin = 40 := rfl
  have hg : GAME_HEIGHT = 640 := rfl
  have hgr : groundHeight = 72 := rfl
  have hpg : pipeGap = 160 := rfl
  refine ⟨?_, ?_, ?_⟩
  · rw [htop, hm]
    exact hloQ
  · rw [bottomHeightOf, htop, hm, hg, hgr, hpg]
    linarith
  · rw [bottomHeightOf]
    ring

/-- C6 (witness): the generator bounds evaluated at the draw 1/2 and
x = 480, where the generated top height is 204. -/
theorem c6_witness :
    margin ≤ (generatePipeAtX (1 / 2) 480).topHeight ∧
    margin ≤ bottomHeightOf (generatePipeAtX (1 / 2) 480) ∧
    (generatePipeAtX (1 / 2) 480).topHeight + pipeGap +
      bottomHeightOf (generatePipeAtX (1 / 2) 480) = GAME_HEIGHT - groundHeight :=
  c6_pipe_heights (1 / 2) 480 (by norm_num) (by norm_num)

/-- C9: for every dt and random draw, a tick on a state that is not
Running (not started, or game over) leaves the entire state unchanged:
avatar, pipes, score, best, new-best flag, game flags and parallax
offsets. -/
theorem c9_tick_noop (r dt : ℚ) (s : GameState)
    (h : s.started = false ∨ s.gameOver = true) :
    update r dt s = s := by
  rw [update, if_pos h]

/-- C9 (witness): a tick on the freshly initialized (idle) state is a
no-op. -/
theorem c9_witness :
    update 0 16 (initState Option.none) = initState Option.none :=
  c9_tick_noop 0 16 (initState Option.none) (Or.inl rfl)

/-- C4 (counterexample): the stored string -5 coerces to the finite number
-5, which readBestScore returns as is; the startup read is therefore not
a non-negative integer for every persisted raw value. -/
theorem c4_read_counterexample :
    readBestScore (some "-5") = -5 ∧
    ¬(0 ≤ readBestScore (some "-5") ∧ ∃ n : ℕ, readBestScore (some "-5") = (n : ℚ)) := by
  have h : readBestScore (some "-5") = -5 := by decide
  refine ⟨h, ?_⟩
  rintro ⟨h0, -⟩
  rw [h] at h0
  norm_num at h0

/-- C4 (amended): the startup read returns 0 whenever the stored value is
absent or non-numeric (coercing to NaN or an infinity), and otherwise
returns exactly the coerced finite value, which need not be a
non-negative integer (a stored "-5" yields -5). -/
theorem c4_read_best_default (raw : Option String) :
    (raw = none → readBestScore raw = 0) ∧
    (∀ s, raw = some s →
      ((jsToNumber s = JsNum.nan ∨ jsToNumber s = JsNum.posInf ∨
          jsToNumber s = JsNum.negInf) → readBestScore raw = 0) ∧
      (∀ q, jsToNumber s = JsNum.fin q → readBestScore raw = q)) := by
  constructor
  · rintro rfl
    rfl
  · rintro s rfl
    constructor
    · rintro (h | h | h) <;> simp [readBestScore, h]
    · intro q hq
      simp [readBestScore, hq]

/-- C4 (witness): the default and pass-through behaviour evaluated on an
absent value, a non-numeric string and a numeric string. -/
theorem c4_witness :
    readBestScore Option.none = 0 ∧
    readBestScore (some "abc") = 0 ∧
    readBestScore (some "12") = 12 :=
  ⟨(c4_read_best_default Option.none).1 rfl,
   ((c4_read_best_default (some "abc")).2 "abc" rfl).1 (Or.inl (by decide)),
   ((c4_read_best_default (some "12")).2 "12" rfl).2 12 (by decide)⟩

/-- One scoring-loop iteration never decreases the best score. -/
lemma scoreStep_best_le (b : Strawberry) (acc : ScoreAcc) (p : Pipe) :
    acc.best ≤ (scoreStep b acc p).1.best := by
  cases hl : (latchPipe b.x p).2 with
  | false => simp [scoreStep, hl]
  | true =>
      simp only [scoreStep, hl, if_true, true_and]
      split_ifs with h
      · linarith [h]
      · exact le_refl _

/-- The whole scoring loop never decreases the best score. -/
lemma scoreFold_best_le (b : Strawberry) (l : List Pipe) :
    ∀ acc : ScoreAcc, acc.best ≤ (scoreFold b acc l).1.best := by
  induction l with
  | nil => intro acc; simp [scoreFold]
  | cons p ps ih =>
      intro acc
      simp only [scoreFold]
      exact le_trans (scoreStep_best_le b acc p) (ih _)

/-- A tick never decreases the best score. -/
lemma update_best_le (r dt : ℚ) (s : GameState) : s.best ≤ (update r dt s).best := by
  rw [update]
  split_ifs with h
  · exact le_refl _
  · exact scoreFold_best_le _ _ _

/-- A flap never changes the best score. -/
lemma flap_best (rs : ℕ → ℚ) (s : GameState) : (flap rs s).best = s.best := by
  rw [flap]
  split_ifs <;> rfl

/-- One event never decreases the best score. -/
lemma stepEvent_best_le (e : GameEvent) (s : GameState) :
    s.best ≤ (stepEvent e s).best := by
  cases e with
  | flapEv rs => exact le_of_eq (flap_best rs s).symm
  | tickEv r dt => exact update_best_le r dt s

/-- A run of events never decreases the best score. -/
lemma runEvents_best_le (es : List GameEvent) :
    ∀ s : GameState, s.best ≤ (runEvents es s).best := by
  induction es with
  | nil => intro s; exact le_refl _
  | cons e es ih =>
      intro s
      exact le_trans (stepEvent_best_le e s) (ih (stepEvent e s))

/-- C8: across any sequence of flap events and ticks, the best score never
decreases; and from an Ended state a flap resets the score to 0 while
leaving best unchanged. -/
theorem c8_best_monotone (s : GameState) (es : List GameEvent) (rs : ℕ → ℚ) :
    s.best ≤ (runEvents es s).best ∧
    (s.started = true → s.gameOver = true →
      (flap rs s).score = 0 ∧ (flap rs s).best = s.best) := by
  refine ⟨runEvents_best_le es s, fun h1 h2 => ?_⟩
  have hf : flap rs s = resetGame s := by simp [flap, h1, h2]
  rw [hf]
  exact ⟨rfl, rfl⟩

/-- C8 (witness): evaluated on the concrete Ended state with one tick. -/
theorem c8_witness :
    endedDemo.best ≤ (runEvents [GameEvent.tickEv 0 16] endedDemo).best ∧
    (flap (fun _ => 0) endedDemo).score = 0 ∧
    (flap (fun _ => 0) endedDemo).best = endedDemo.best :=
  ⟨(c8_best_monotone endedDemo [GameEvent.tickEv 0 16] (fun _ => 0)).1,
   (c8_best_monotone endedDemo [GameEvent.tickEv 0 16] (fun _ => 0)).2 rfl rfl⟩

/-- The successor relation of the spacing invariant: the next coordinate
is exactly one pipeSpacing further right. -/
def spacedNext (a b : ℚ) : Prop := b = a + pipeSpacing

/-- The pipe-list spacing invariant: consecutive pipes are exactly one
pipeSpacing apart. -/
def wellSpaced (l : List Pipe) : Prop :=
  List.Chain' (fun p q : Pipe => spacedNext p.x q.x) l

/-- The spacing invariant only depends on the x coordinates. -/
lemma wellSpaced_iff_xs (l : List Pipe) :
    wellSpaced l ↔ List.Chain' spacedNext (l.map Pipe.x) :=
  (List.chain'_map Pipe.x).symm

/-- Moving all pipes left by the same amount preserves the spacing. -/
lemma wellSpaced_move (dtS : ℚ) (l : List Pipe) (h : wellSpaced l) :
    wellSpaced (l.map (movePipe dtS)) := by
  apply List.chain'_map_of_chain' (movePipe dtS) _ h
  intro a b hab
  simp only [spacedNext, movePipe] at hab ⊢
  linarith

/-- Retiring the head pipe preserves the spacing. -/
lemma wellSpaced_retire (l : List Pipe) (h : wellSpaced l) :
    wellSpaced (retireHead l) := by
  cases l with
  | nil => exact h
  | cons p ps =>
      rw [retireHead]
      split_ifs
      · exact List.Chain'.tail h
      · exact h

/-- Appending the freshly generated pipe one spacing after the tail
preserves the spacing. -/
lemma wellSpaced_spawn (r : ℚ) (l : List Pipe) (h : wellSpaced l) :
    wellSpaced (spawnTail r l) := by
  rw [spawnTail]
  cases hl : l.getLast? with
  | none => exact h
  | some last =>
      dsimp only
      split_ifs
      · refine List.chain'_append.mpr ⟨h, List.chain'_singleton _, ?_⟩
        intro p hp q hq
        rw [hl, Option.mem_def, Option.some_inj] at hp
        simp only [List.head?_cons, Option.mem_def, Option.some_inj] at hq
        subst hp
        subst hq
        simp [spacedNext, generatePipeAtX]
      · exact h

/-- The scoring latch never changes a pipe's x coordinate. -/
lemma latchPipe_x (sx : ℚ) (p : Pipe) : ((latchPipe sx p).1).x = p.x := by
  rw [latchPipe]
  split_ifs <;> rfl

/-- The scoring loop never changes the pipes' x coordinates. -/
lemma scoreFold_map_x (b : Strawberry) (l : List Pipe) :
    ∀ acc : ScoreAcc, ((scoreFold b acc l).2).map Pipe.x = l.map Pipe.x := by
  induction l with
  | nil => intro acc; simp [scoreFold]
  | cons p ps ih =>
      intro acc
      simp only [scoreFold, List.map_cons]
      rw [ih]
      congr 1
      exact latchPipe_x b.x p

/-- The scoring loop preserves the spacing. -/
lemma wellSpaced_scoreFold (b : Strawberry) (acc : ScoreAcc) (l : List Pipe)
    (h : wellSpaced l) : wellSpaced (scoreFold b acc l).2 := by
  rw [wellSpaced_iff_xs, scoreFold_map_x]
  rw [wellSpaced_iff_xs] at h
  exact h

/-- The seeded pipe lists of startGame satisfy the spacing invariant. -/
lemma wellSpaced_seedPipes : ∀ (n : ℕ) (rs : ℕ → ℚ) (x : ℚ),
    wellSpaced (seedPipes rs x n) := by
  intro n
  induction n with
  | zero => intro rs x; exact List.chain'_nil
  | succ m ih =>
      intro rs x
      rw [seedPipes]
      apply List.Chain'.cons' (ih _ _)
      intro q hq
      cases m with
      | zero => simp [seedPipes] at hq
      | succ k =>
          simp only [seedPipes, List.head?_cons, Option.mem_def, Option.some_inj] at hq
          subst hq
          simp [spacedNext, generatePipeAtX]

/-- A tick preserves the spacing invariant. -/
lemma update_wellSpaced (r dt : ℚ) (s : GameState) (h : wellSpaced s.pipes) :
    wellSpaced (update r dt s).pipes := by
  rw [update]
  split_ifs with hg
  · exact h
  · apply wellSpaced_scoreFold
    rw [movedPipes]
    exact wellSpaced_spawn _ _ (wellSpaced_retire _ (wellSpaced_move _ _ h))

/-- A flap preserves the spacing invariant. -/
lemma flap_wellSpaced (rs : ℕ → ℚ) (s : GameState) (h : wellSpaced s.pipes) :
    wellSpaced (flap rs s).pipes := by
  rw [flap]
  split_ifs
  · exact wellSpaced_seedPipes 4 rs (GAME_WIDTH + 120)
  · exact List.chain'_nil
  · exact h

/-- Every event preserves the spacing invariant. -/
lemma stepEvent_wellSpaced (e : GameEvent) (s : GameState) (h : wellSpaced s.pipes) :
    wellSpaced (stepEvent e s).pipes := by
  cases e with
  | flapEv rs => exact flap_wellSpaced rs s h
  | tickEv r dt => exact update_wellSpaced r dt s h

/-- A run of events preserves the spacing invariant. -/
lemma runEvents_wellSpaced (es : List GameEvent) :
    ∀ s : GameState, wellSpaced s.pipes → wellSpaced (runEvents es s).pipes := by
  induction es with
  | nil => intro s h; exact h
  | cons e es ih =>
      intro s h
      exact ih (stepEvent e s) (stepEvent_wellSpaced e s h)

/-- Exact spacing implies strictly increasing x coordinates. -/
lemma wellSpaced_pairwise_lt (l : List Pipe) (h : wellSpaced l) :
    List.Pairwise (fun p q : Pipe => p.x < q.x) l := by
  haveI : IsTrans Pipe (fun p q : Pipe => p.x < q.x) :=
    ⟨fun a b c h1 h2 => lt_trans h1 h2⟩
  rw [← List.chain'_iff_pairwise]
  apply List.Chain'.imp _ h
  intro p q hpq
  rw [spacedNext] at hpq
  have : (0 : ℚ) < pipeSpacing := by norm_num [pipeSpacing]
  linarith

/-- C10: in every state reachable from process start by any sequence of
flaps and ticks, the pipe list has strictly increasing x coordinates and
every two consecutive pipes are exactly pipeSpacing = 240 apart. -/
theorem c10_pipes_spaced (stored : Option String) (es : List GameEvent) :
    wellSpaced (runEvents es (initState stored)).pipes ∧
    List.Pairwise (fun p q : Pipe => p.x < q.x)
      (runEvents es (initState stored)).pipes := by
  have h0 : wellSpaced (initState stored).pipes := List.chain'_nil
  have h := runEvents_wellSpaced es (initState stored) h0
  exact ⟨h, wellSpaced_pairwise_lt _ h⟩

/-- What one running tick does to a single pipe inside update
(src/index.js lines 346-348 and 368-379): move left, then run the scoring
latch against the avatar x.  The Bool is whether the score was
incremented on account of this pipe during this tick. -/
def pipeTick (sx dt : ℚ) (p : Pipe) : Pipe × Bool :=
  latchPipe sx (movePipe (dt / 1000) p)

/-- A single pipe followed through a sequence of ticks: the final pipe and
the per-tick score-increment flags. -/
def pipeRun (sx : ℚ) : Pipe → List ℚ → Pipe × List Bool
  | p, [] => (p, [])
  | p, dt :: rest =>
      let t := pipeTick sx dt p
      let r := pipeRun sx t.1 rest
      (r.1, t.2 :: r.2)

/-- The scoring condition at tick i of a tick sequence: the avatar x
exceeds the pipe's trailing edge as positioned during tick i (after i + 1
movements). -/
def passCond (sx : ℚ) (p : Pipe) (dts : List ℚ) (i : ℕ) : Prop :=
  sx > p.x - pipeSpeed * ((dts.take (i + 1)).sum / 1000) + p.width

/-- Unfolding equation for pipeRun on a cons. -/
lemma pipeRun_cons (sx d : ℚ) (rest : List ℚ) (p : Pipe) :
    pipeRun sx p (d :: rest) =
      ((pipeRun sx (pipeTick sx d p).1 rest).1,
        (pipeTick sx d p).2 :: (pipeRun sx (pipeTick sx d p).1 rest).2) := by
  rw [pipeRun]

/-- The latch never changes a pipe's width. -/
lemma latchPipe_width (sx : ℚ) (p : Pipe) : ((latchPipe sx p).1).width = p.width := by
  rw [latchPipe]
  split_ifs <;> rfl

/-- One pipe tick moves x left by speed times dt seconds. -/
lemma pipeTick_fst_x (sx dt : ℚ) (p : Pipe) :
    (pipeTick sx dt p).1.x = p.x - pipeSpeed * (dt / 1000) := by
  rw [pipeTick, latchPipe_x]
  rfl

/-- One pipe tick keeps the width. -/
lemma pipeTick_fst_width (sx dt : ℚ) (p : Pipe) :
    (pipeTick sx dt p).1.width = p.width := by
  rw [pipeTick, latchPipe_width]
  rfl

/-- The increment flag fires exactly when the pipe was not yet passed and
the avatar x exceeds the moved trailing edge. -/
lemma pipeTick_snd_iff (sx dt : ℚ) (p : Pipe) :
    (pipeTick sx dt p).2 = true ↔
      (p.passed = false ∧ sx > p.x - pipeSpeed * (dt / 1000) + p.width) := by
  rw [pipeTick, latchPipe]
  split_ifs with h
  · simp only [movePipe] at h
    exact iff_of_true rfl h
  · simp only [movePipe] at h
    exact iff_of_false (by simp) h

/-- The passed flag stays false over a tick exactly when it was false and
the scoring condition did not hold this tick. -/
lemma pipeTick_fst_passed_false_iff (sx dt : ℚ) (p : Pipe) :
    (pipeTick sx dt p).1.passed = false ↔
      (p.passed = false ∧ ¬ sx > p.x - pipeSpeed * (dt / 1000) + p.width) := by
  rw [pipeTick, latchPipe]
  split_ifs with h
  · simp only [movePipe] at h
    exact iff_of_false (by simp) (fun hc => hc.2 h.2)
  · simp only [movePipe] at h ⊢
    constructor
    · intro hp
      exact ⟨hp, fun hgt => h ⟨hp, hgt⟩⟩
    · intro hc
      exact hc.1

/-- When the increment flag fires, the passed flag is set. -/
lemma pipeTick_snd_passed (sx dt : ℚ) (p : Pipe) (h : (pipeTick sx dt p).2 = true) :
    (pipeTick sx dt p).1.passed = true := by
  rw [pipeTick, latchPipe] at h ⊢
  split_ifs at h ⊢
  rfl

/-- The scoring condition at index 0 of a cons sequence. -/
lemma passCond_zero (sx d : ℚ) (rest : List ℚ) (p : Pipe) :
    passCond sx p (d :: rest) 0 ↔ sx > p.x - pipeSpeed * (d / 1000) + p.width := by
  rw [passCond]
  simp only [List.take_succ_cons, List.take_zero, List.sum_cons, List.sum_nil]
  constructor <;> intro <;> linarith

/-- Shifting the scoring condition across one tick. -/
lemma passCond_succ (sx d : ℚ) (rest : List ℚ) (p : Pipe) (i : ℕ) :
    passCond sx (pipeTick sx d p).1 rest i ↔ passCond sx p (d :: rest) (i + 1) := by
  rw [passCond, passCond, pipeTick_fst_x, pipeTick_fst_width]
  have he : p.x - pipeSpeed * (d / 1000) - pipeSpeed * ((rest.take (i + 1)).sum / 1000)
      + p.width
      = p.x - pipeSpeed * (((d :: rest).take (i + 1 + 1)).sum / 1000) + p.width := by
    rw [List.take_succ_cons, List.sum_cons]
    ring
  rw [he]

/-- The increment flag of tick i is set exactly when the pipe entered the
run unpassed, the scoring condition holds at tick i, and it held at no
earlier tick. -/
lemma pipeRun_getD (sx : ℚ) : ∀ (dts : List ℚ) (p : Pipe) (i : ℕ),
    ((pipeRun sx p dts).2.getD i false = true) ↔
      (i < dts.length ∧ p.passed = false ∧ passCond sx p dts i ∧
        ∀ j, j < i → ¬ passCond sx p dts j) := by
  intro dts
  induction dts with
  | nil =>
      intro p i
      simp [pipeRun]
  | cons d rest ih =>
      intro p i
      rw [pipeRun_cons]
      cases i with
      | zero =>
          rw [List.getD_cons_zero, pipeTick_snd_iff, passCond_zero]
          constructor
          · rintro ⟨h1, h2⟩
            exact ⟨by simp, h1, h2, by omega⟩
          · rintro ⟨-, h1, h2, -⟩
            exact ⟨h1, h2⟩
      | succ i' =>
          rw [List.getD_cons_succ, ih (pipeTick sx d p).1 i']
          constructor
          · rintro ⟨hlen, hpf, hpc, hall⟩
            have hp := (pipeTick_fst_passed_false_iff sx d p).mp hpf
            refine ⟨by simp; omega, hp.1, (passCond_succ sx d rest p i').mp hpc, ?_⟩
            intro j hj
            cases j with
            | zero =>
                rw [passCond_zero]
                exact hp.2
            | succ j' =>
                intro hc
                exact hall j' (by omega) ((passCond_succ sx d rest p j').mpr hc)
          · rintro ⟨hlen, hpf, hpc, hall⟩
            have h0 : ¬ passCond sx p (d :: rest) 0 := hall 0 (by omega)
            rw [passCond_zero] at h0
            have hlen' : i' < rest.length := by simp at hlen; omega
            refine ⟨hlen', (pipeTick_fst_passed_false_iff sx d p).mpr ⟨hpf, h0⟩,
              (passCond_succ sx d rest p i').mpr hpc, ?_⟩
            intro j hj hc
            exact hall (j + 1) (by omega) ((passCond_succ sx d rest p j).mp hc)

/-- A pipe that is already passed never produces an increment. -/
lemma pipeRun_count_zero (sx : ℚ) : ∀ (dts : List ℚ) (p : Pipe),
    p.passed = true → (pipeRun sx p dts).2.count true = 0 := by
  intro dts
  induction dts with
  | nil =>
      intro p _
      simp [pipeRun]
  | cons d rest ih =>
      intro p hp
      rw [pipeRun_cons]
      have ht : (pipeTick sx d p).2 = false := by
        cases h2 : (pipeTick sx d p).2
        · rfl
        · have hc := (pipeTick_snd_iff sx d p).mp h2
          rw [hp] at hc
          exact absurd hc.1 (by simp)
      have hp1 : (pipeTick sx d p).1.passed = true := by
        cases hpp : (pipeTick sx d p).1.passed
        · have hc := (pipeTick_fst_passed_false_iff sx d p).mp hpp
          rw [hp] at hc
          exact absurd hc.1 (by simp)
        · rfl
      simp [List.count_cons, ht, ih _ hp1]

/-- A pipe produces at most one increment over any tick sequence. -/
lemma pipeRun_count_le_one (sx : ℚ) : ∀ (dts : List ℚ) (p : Pipe),
    (pipeRun sx p dts).2.count true ≤ 1 := by
  intro dts
  induction dts with
  | nil =>
      intro p
      simp [pipeRun]
  | cons d rest ih =>
      intro p
      rw [pipeRun_cons]
      cases ht : (pipeTick sx d p).2
      · simpa [List.count_cons, ht] using ih (pipeTick sx d p).1
      · have h1 := pipeTick_snd_passed sx d p ht
        simp [List.count_cons, ht, pipeRun_count_zero sx rest _ h1]

/-- Within one tick, the score grows by exactly the number of pipes whose
latch fired: each increment flag accounts for exactly +1 of score. -/
lemma scoreFold_score (b : Strawberry) (l : List Pipe) :
    ∀ acc : ScoreAcc, (scoreFold b acc l).1.score
      = acc.score + ((l.map (fun q => (latchPipe b.x q).2)).count true : ℕ) := by
  induction l with
  | nil =>
      intro acc
      simp [scoreFold]
  | cons p ps ih =>
      intro acc
      simp only [scoreFold, List.map_cons]
      rw [ih]
      cases hl : (latchPipe b.x p).2
      · simp [scoreStep, hl, List.count_cons]
      · simp [scoreStep, hl, List.count_cons]
        ring

/-- C7: following any single obstacle through any sequence of running
ticks, the score is incremented on account of it at most once, never
once its passed flag is set, and the one increment happens exactly on the
first tick in which the avatar's x exceeds the obstacle's trailing edge
pipe.x + pipe.width. -/
theorem c7_score_exactly_once (sx : ℚ) (p : Pipe) (dts : List ℚ) :
    (pipeRun sx p dts).2.count true ≤ 1 ∧
    (p.passed = true → (pipeRun sx p dts).2.count true = 0) ∧
    (∀ i : ℕ, ((pipeRun sx p dts).2.getD i false = true ↔
      (i < dts.length ∧ p.passed = false ∧ passCond sx p dts i ∧
        ∀ j, j < i → ¬ passCond sx p dts j))) :=
  ⟨pipeRun_count_le_one sx dts p,
   fun hp => pipeRun_count_zero sx dts p hp,
   fun i => pipeRun_getD sx dts p i⟩

/-- A concrete unpassed pipe the avatar has already overtaken. -/
def demoPipe : Pipe :=
  { x := 100, width := 56, topHeight := 200, passed := false,
    styleTop := "Copilot", styleBottom := "Sonnet" }

/-- The same pipe with the passed latch already set. -/
def demoPipePassed : Pipe :=
  { x := 100, width := 56, topHeight := 200, passed := true,
    styleTop := "Copilot", styleBottom := "Sonnet" }

/-- C7 (witness): over two 16ms ticks with avatar x = 200, the overtaken
pipe scores at most once and scores on the very first tick, while the
already-passed pipe never scores. -/
theorem c7_witness :
    (pipeRun 200 demoPipe [16, 16]).2.count true ≤ 1 ∧
    (pipeRun 200 demoPipePassed [16, 16]).2.count true = 0 ∧
    (pipeRun 200 demoPipe [16, 16]).2.getD 0 false = true :=
  ⟨(c7_score_exactly_once 200 demoPipe [16, 16]).1,
   (c7_score_exactly_once 200 demoPipePassed [16, 16]).2.1 rfl,
   ((c7_score_exactly_once 200 demoPipe [16, 16]).2.2 0).mpr
     ⟨by norm_num, rfl,
      by
        rw [passCond_zero]
        norm_num [demoPipe, pipeSpeed],
      by omega⟩⟩

end Flappy
